import Mathlib

/-!
Verification development for the Agentic-Real-Estate backend.

The repository is an Express backend relaying VAPI tool-call webhooks to a
CRM (HubSpot), with a mock in-memory property list, mock scheduling logic,
and request-shape normalization.  The definitions below are a shallow
embedding of the TypeScript sources:

* `src/services/property.ts` (mock property list, `searchProperties`,
  `scheduleViewing`),
* `src/config/hubspot.ts` (`createOrUpdateContact`),
* `src/routes/property.ts` (POST `/search`, POST `/schedule-viewing`),
* `src/routes/hubspot.ts` (POST `/sync-contact`),
* `src/middleware/auth.ts` (`validateVapiSecret`),
* `src/types/vapi.ts` (parameter and response shapes).

JavaScript conventions are modelled explicitly: a possibly-missing field is
an `Option`, string falsiness (`undefined` or `""`) and number falsiness
(`undefined` or `0`) are spelled out, and JSON objects are records holding
exactly the fields the code reads.  JavaScript numbers are modelled as `Int`
(no floating point behavior is relevant to the properties proved here).
Console logging is not modelled: it never affects a response.
-/

namespace AgenticRE

/-! ## JavaScript truthiness helpers -/

/-- Truthiness of a possibly-absent JS string: `undefined` and `""` are falsy. -/
def jsTruthyStr : Option String → Bool
  | none => false
  | some s => !(s == "")

/-- `x || 'unknown'` on a possibly-absent JS string. -/
def jsOrUnknown : Option String → String
  | none => "unknown"
  | some s => if s == "" then "unknown" else s

/-- ASCII-style lowercasing, modelling `String.prototype.toLowerCase` on the
ASCII data appearing in this repository. -/
def lowerStr (s : String) : String := ⟨s.data.map Char.toLower⟩

/-- Substring test on character lists: `needle` occurs contiguously in the
second argument.  Models `String.prototype.includes`. -/
def charsIncl (needle : List Char) : List Char → Bool
  | [] => needle.isEmpty
  | c :: rest => needle.isPrefixOf (c :: rest) || charsIncl needle rest

/-- `hay.includes(needle)` for strings. -/
def strIncludes (hay needle : String) : Bool := charsIncl needle.data hay.data

/-- Case-insensitive substring test:
`prop.address.toLowerCase().includes(location.toLowerCase())`. -/
def includesCI (hay needle : String) : Bool :=
  strIncludes (lowerStr hay) (lowerStr needle)

/-! ## Data model (`src/types/vapi.ts`, `src/services/property.ts`) -/

/-- One entry of the in-memory mock property list. -/
structure Property where
  id : String
  address : String
  price : Int
  bedrooms : Int
  propertyType : String
  description : String
deriving DecidableEq

/-- The `priceRange` component of `PropertySearchParams`.  Both bounds may be
absent at runtime (the TS interface declares them required, but the flat
webhook shape forwards arbitrary JSON). -/
structure PriceRangeParam where
  min : Option Int
  max : Option Int
deriving DecidableEq

/-- `PropertySearchParams` from `src/types/vapi.ts`; every field optional. -/
structure PropertySearchParams where
  priceRange : Option PriceRangeParam
  bedrooms : Option Int
  location : Option String
  propertyType : Option String
deriving DecidableEq

/-- `PropertySearchResponse` from `src/types/vapi.ts`. -/
structure PropertySearchResponse where
  success : Bool
  properties : List Property
deriving DecidableEq

/-- The five-element `mockProperties` literal from `src/services/property.ts`. -/
def mockProperties : List Property :=
  [ { id := "prop1", address := "123 Main St, San Francisco, CA", price := 1200000,
      bedrooms := 3, propertyType := "Single Family Home",
      description := "Beautiful home in prime location" },
    { id := "prop2", address := "456 Market St, San Francisco, CA", price := 800000,
      bedrooms := 2, propertyType := "Condo",
      description := "Modern condo with city views" },
    { id := "prop3", address := "789 Congress Ave, Austin, Texas", price := 950000,
      bedrooms := 3, propertyType := "Single Family Home",
      description := "Spacious family home close to downtown Austin" },
    { id := "prop4", address := "101 Barton Springs Rd, Austin, Texas", price := 750000,
      bedrooms := 3, propertyType := "Townhouse",
      description := "Modern townhome with access to Barton Springs" },
    { id := "prop5", address := "222 East 6th St, Austin, Texas", price := 650000,
      bedrooms := 2, propertyType := "Condo",
      description := "Downtown condo in the heart of the entertainment district" } ]

/-! ## `searchProperties` (`src/services/property.ts`)

The source reassigns a local `filteredProperties` through four conditional
filter stages; each stage below is one of those `if` blocks, in source
order. -/

/-- Price stage: filters when `priceRange` is present and `min`/`max` are both
defined (range) or only `max` is defined (upper bound); a `priceRange` with
only `min` (or neither bound) filters nothing. -/
def stagePrice (pr : Option PriceRangeParam) (l : List Property) : List Property :=
  match pr with
  | some r =>
    match r.min, r.max with
    | some mn, some mx => l.filter (fun p => decide (mn ≤ p.price) && decide (p.price ≤ mx))
    | none, some mx => l.filter (fun p => decide (p.price ≤ mx))
    | _, _ => l
  | none => l

/-- Bedrooms stage: `if (params.bedrooms)` — a JS truthiness test, so the
filter is skipped when `bedrooms` is absent or `0`. -/
def stageBedrooms (b : Option Int) (l : List Property) : List Property :=
  match b with
  | some n => if n ≠ 0 then l.filter (fun p => p.bedrooms == n) else l
  | none => l

/-- Property-type stage: `if (params.propertyType)` — skipped when absent or
the empty string; compares lowercased strings for equality. -/
def stageType (t : Option String) (l : List Property) : List Property :=
  match t with
  | some s => if s ≠ "" then l.filter (fun p => lowerStr p.propertyType == lowerStr s) else l
  | none => l

/-- Location stage: `if (params.location)` — skipped when absent or the empty
string; case-insensitive substring match against the address. -/
def stageLocation (loc : Option String) (l : List Property) : List Property :=
  match loc with
  | some s => if s ≠ "" then l.filter (fun p => includesCI p.address s) else l
  | none => l

/-- `searchProperties`, parameterized by the backing list (`[...mockProperties]`
is copied into `filteredProperties`, then the four stages run in order; the
module-level list itself is never written). -/
def searchPropertiesCore (db : List Property) (params : PropertySearchParams) :
    PropertySearchResponse :=
  { success := true,
    properties :=
      stageLocation params.location
        (stageType params.propertyType
          (stageBedrooms params.bedrooms
            (stagePrice params.priceRange db))) }

/-- `searchProperties` as exported: runs against the module-level mock list. -/
def searchProperties (params : PropertySearchParams) : PropertySearchResponse :=
  searchPropertiesCore mockProperties params

/-! ### One-pass characterization of the filter chain -/

/-- Per-element predicate of the price stage. -/
def pricePred (pr : Option PriceRangeParam) (p : Property) : Bool :=
  match pr with
  | some r =>
    match r.min, r.max with
    | some mn, some mx => decide (mn ≤ p.price) && decide (p.price ≤ mx)
    | none, some mx => decide (p.price ≤ mx)
    | _, _ => true
  | none => true

/-- Per-element predicate of the bedrooms stage (skipped when `0` or absent). -/
def bedroomsPred (b : Option Int) (p : Property) : Bool :=
  match b with
  | some n => if n ≠ 0 then p.bedrooms == n else true
  | none => true

/-- Per-element predicate of the property-type stage (skipped when `""` or absent). -/
def typePred (t : Option String) (p : Property) : Bool :=
  match t with
  | some s => if s ≠ "" then lowerStr p.propertyType == lowerStr s else true
  | none => true

/-- Per-element predicate of the location stage (skipped when `""` or absent). -/
def locPred (loc : Option String) (p : Property) : Bool :=
  match loc with
  | some s => if s ≠ "" then includesCI p.address s else true
  | none => true

/-- The conjunction of the four stage predicates: the effective filter of
`searchProperties`, truthiness rules included. -/
def codeMatches (params : PropertySearchParams) (p : Property) : Bool :=
  pricePred params.priceRange p && bedroomsPred params.bedrooms p &&
    typePred params.propertyType p && locPred params.location p

theorem stagePrice_eq (pr : Option PriceRangeParam) (l : List Property) :
    stagePrice pr l = l.filter (pricePred pr) := by
  rcases pr with _ | ⟨mn, mx⟩
  · rw [show pricePred none = fun _ => true from rfl, List.filter_true]; rfl
  · rcases mn with _ | mn <;> rcases mx with _ | mx
    · rw [show pricePred (some ⟨none, none⟩) = fun _ => true from rfl, List.filter_true]; rfl
    · rfl
    · rw [show pricePred (some ⟨some mn, none⟩) = fun _ => true from rfl, List.filter_true]; rfl
    · rfl

theorem stageBedrooms_eq (b : Option Int) (l : List Property) :
    stageBedrooms b l = l.filter (bedroomsPred b) := by
  rcases b with _ | n
  · rw [show bedroomsPred none = fun _ => true from rfl, List.filter_true]; rfl
  · by_cases hn : n = 0
    · subst hn
      rw [show bedroomsPred (some 0) = fun _ => true from rfl, List.filter_true]; rfl
    · show (if n ≠ 0 then _ else _) = _
      rw [if_pos hn]
      exact List.filter_congr (fun p _ => by simp [bedroomsPred, hn])

theorem stageType_eq (t : Option String) (l : List Property) :
    stageType t l = l.filter (typePred t) := by
  rcases t with _ | s
  · rw [show typePred none = fun _ => true from rfl, List.filter_true]; rfl
  · by_cases hs : s = ""
    · subst hs
      rw [show typePred (some "") = fun _ => true from rfl, List.filter_true]; rfl
    · show (if s ≠ "" then _ else _) = _
      rw [if_pos hs]
      exact List.filter_congr (fun p _ => by simp [typePred, hs])

theorem stageLocation_eq (loc : Option String) (l : List Property) :
    stageLocation loc l = l.filter (locPred loc) := by
  rcases loc with _ | s
  · rw [show locPred none = fun _ => true from rfl, List.filter_true]; rfl
  · by_cases hs : s = ""
    · subst hs
      rw [show locPred (some "") = fun _ => true from rfl, List.filter_true]; rfl
    · show (if s ≠ "" then _ else _) = _
      rw [if_pos hs]
      exact List.filter_congr (fun p _ => by simp [locPred, hs])

/-- The sequential filter chain of `searchProperties` equals a single pass
with the conjunction of the stage predicates; in particular the original
order of the list is preserved. -/
theorem searchPropertiesCore_eq_filter (db : List Property)
    (params : PropertySearchParams) :
    searchPropertiesCore db params =
      { success := true, properties := db.filter (codeMatches params) } := by
  unfold searchPropertiesCore
  rw [stagePrice_eq, stageBedrooms_eq, stageType_eq, stageLocation_eq,
    List.filter_filter, List.filter_filter, List.filter_filter]
  refine congrArg (fun l => PropertySearchResponse.mk true l) ?_
  exact List.filter_congr (fun p _ => by
    simp [codeMatches, Bool.and_assoc, Bool.and_comm, Bool.and_left_comm])

/-! ## Claim C2: the mock search returns the matching subset -/

/-- The matching predicate as the claim's words read: an element satisfies
"every filter that is provided" — price within the given `min..max` bounds,
`bedrooms` equal to the given number, `propertyType` equal
case-insensitively, and `location` a case-insensitive substring of the
address; an absent filter excludes nothing.  (Stated from the claim for
comparison with `codeMatches`; "provided" is field presence.) -/
def claimMatches (params : PropertySearchParams) (p : Property) : Bool :=
  (match params.priceRange with
   | some r =>
     (match r.min with | some mn => decide (mn ≤ p.price) | none => true) &&
       (match r.max with | some mx => decide (p.price ≤ mx) | none => true)
   | none => true) &&
  (match params.bedrooms with | some n => p.bedrooms == n | none => true) &&
  (match params.propertyType with
   | some s => lowerStr p.propertyType == lowerStr s
   | none => true) &&
  (match params.location with | some s => includesCI p.address s | none => true)

/-- Claim C2, counterexample: with the filter `bedrooms := 0` provided, the
claim demands the subset of mock properties with zero bedrooms (the empty
list), but `searchProperties` skips the bedrooms filter on the falsy value
`0` and returns all five properties. -/
theorem searchProperties_bedrooms_zero_counterexample :
    (searchProperties
        { priceRange := none, bedrooms := some 0, location := none,
          propertyType := none }).properties ≠
      mockProperties.filter
        (claimMatches
          { priceRange := none, bedrooms := some 0, location := none,
            propertyType := none }) ∧
    (searchProperties
        { priceRange := none, bedrooms := some 0, location := none,
          propertyType := none }).properties = mockProperties ∧
    mockProperties.filter
        (claimMatches
          { priceRange := none, bedrooms := some 0, location := none,
            propertyType := none }) = [] := by
  refine ⟨?_, ?_, ?_⟩ <;> decide

/-- Claim C2, amended: for every search-parameter object, `searchProperties`
returns `success := true` and exactly the subset of the five-element mock
list whose elements satisfy every effective filter, in original list order:
the price filter applies when `priceRange` has both bounds (`min ≤ price ≤
max`) or only `max` (`price ≤ max`), a `min`-only range excluding nothing;
the bedrooms filter applies when `bedrooms` is present and nonzero; the
propertyType (case-insensitive equality) and location (case-insensitive
substring of the address) filters apply when the string is present and
nonempty; every other filter excludes nothing. -/
theorem searchProperties_matching_subset (params : PropertySearchParams) :
    searchProperties params =
      { success := true, properties := mockProperties.filter (codeMatches params) } :=
  searchPropertiesCore_eq_filter mockProperties params

/-! ## HubSpot contact sync (`src/config/hubspot.ts`)

`createOrUpdateContact` talks to the external HubSpot CRM through its SDK.
The CRM itself is modelled as a list of contact records with a fresh-id
counter (ids are modelled as `Nat`); `doSearch` with a single
`email EQ value` filter and `limit 1` returns the first stored contact with
that exact email.  The function's own control flow — search, then update the
found contact's `firstname`/`lastname`/`phone`, or create a new contact —
is translated directly from the source. -/

/-- The contact payload (`ContactData`): `email`, `firstName`, `lastName`,
`phone` are required strings; `propertyInterest` is carried along but never
read by `createOrUpdateContact`. -/
structure ContactData where
  email : String
  firstName : String
  lastName : String
  phone : String
  propertyInterest : String
deriving DecidableEq

/-- A contact record stored in the (external) HubSpot CRM. -/
structure HSContact where
  id : Nat
  email : String
  firstname : String
  lastname : String
  phone : String
deriving DecidableEq

/-- The CRM state: stored contacts plus the next fresh id. -/
structure HSState where
  contacts : List HSContact
  nextId : Nat
deriving DecidableEq

/-- Return value of `createOrUpdateContact`:
`{ id, updated: true }` or `{ id, created: true }`. -/
structure ContactResult where
  id : Nat
  created : Bool
  updated : Bool
deriving DecidableEq

/-- The `searchApi.doSearch` call: filter `email EQ value`, `limit 1`. -/
def doSearchByEmail (s : HSState) (email : String) : List HSContact :=
  (s.contacts.filter (fun c => c.email == email)).take 1

/-- `createOrUpdateContact`: search by exact email; on a hit, update that
contact's `firstname`, `lastname` and `phone` (the stored email is left
as-is) and report `updated`; otherwise create a contact with the given
email and report `created`. -/
def createOrUpdateContact (s : HSState) (cd : ContactData) : HSState × ContactResult :=
  match doSearchByEmail s cd.email with
  | c :: _ =>
    ({ s with
        contacts := s.contacts.map (fun x =>
          if x.id == c.id then
            { x with firstname := cd.firstName, lastname := cd.lastName, phone := cd.phone }
          else x) },
     { id := c.id, created := false, updated := true })
  | [] =>
    ({ contacts :=
        s.contacts ++
          [{ id := s.nextId, email := cd.email, firstname := cd.firstName,
             lastname := cd.lastName, phone := cd.phone }],
       nextId := s.nextId + 1 },
     { id := s.nextId, created := true, updated := false })

/-! ## Claim C3: contact sync is keyed by email for deduplication -/

/-- Claim C3: `createOrUpdateContact` is keyed by email.  If the CRM's
email search finds a first exact match `c`, the call updates exactly that
contact's name and phone (mapping over the stored list, so nothing is
created and the number of contacts is unchanged) and returns `c.id` with
`updated := true`; if the search finds nothing, it appends a single new
contact carrying the given email and returns the fresh id with
`created := true`. -/
theorem createOrUpdateContact_email_dedup (s : HSState) (cd : ContactData) :
    (∀ c : HSContact,
      (s.contacts.filter (fun x => x.email == cd.email)).head? = some c →
        createOrUpdateContact s cd =
          ({ s with
              contacts := s.contacts.map (fun x =>
                if x.id == c.id then
                  { x with firstname := cd.firstName, lastname := cd.lastName,
                           phone := cd.phone }
                else x) },
           { id := c.id, created := false, updated := true }) ∧
        ((createOrUpdateContact s cd).1.contacts.length = s.contacts.length)) ∧
    (s.contacts.filter (fun x => x.email == cd.email) = [] →
      createOrUpdateContact s cd =
        ({ contacts :=
            s.contacts ++
              [{ id := s.nextId, email := cd.email, firstname := cd.firstName,
                 lastname := cd.lastName, phone := cd.phone }],
           nextId := s.nextId + 1 },
         { id := s.nextId, created := true, updated := false })) := by
  constructor
  · intro c hc
    cases hf : s.contacts.filter (fun x => x.email == cd.email) with
    | nil => rw [hf] at hc; exact absurd hc (by simp)
    | cons c' rest =>
      rw [hf] at hc
      simp only [List.head?_cons, Option.some.injEq] at hc
      subst hc
      have : createOrUpdateContact s cd =
          ({ s with
              contacts := s.contacts.map (fun x =>
                if x.id == c'.id then
                  { x with firstname := cd.firstName, lastname := cd.lastName,
                           phone := cd.phone }
                else x) },
           { id := c'.id, created := false, updated := true }) := by
        unfold createOrUpdateContact doSearchByEmail
        rw [hf]
        rfl
      exact ⟨this, by rw [this]; simp⟩
  · intro hf
    unfold createOrUpdateContact doSearchByEmail
    rw [hf]
    rfl

/-- Witness for C3 at a concrete CRM state: a stored contact with the
searched email is updated in place (branch one), and a fresh email leads to
creation (branch two). -/
theorem createOrUpdateContact_email_dedup_witness :
    (createOrUpdateContact
        { contacts :=
            [{ id := 7, email := "a@b.c", firstname := "Old", lastname := "Name",
               phone := "1" }],
          nextId := 8 }
        { email := "a@b.c", firstName := "New", lastName := "Person", phone := "2",
          propertyInterest := "" } =
      ({ contacts :=
          [{ id := 7, email := "a@b.c", firstname := "New", lastname := "Person",
             phone := "2" }],
         nextId := 8 },
       { id := 7, created := false, updated := true })) ∧
    (createOrUpdateContact { contacts := [], nextId := 0 }
        { email := "x@y.z", firstName := "F", lastName := "L", phone := "3",
          propertyInterest := "" } =
      ({ contacts :=
          [{ id := 0, email := "x@y.z", firstname := "F", lastname := "L",
             phone := "3" }],
         nextId := 1 },
       { id := 0, created := true, updated := false })) := by
  constructor
  · exact ((createOrUpdateContact_email_dedup
      { contacts :=
          [{ id := 7, email := "a@b.c", firstname := "Old", lastname := "Name",
             phone := "1" }],
        nextId := 8 }
      { email := "a@b.c", firstName := "New", lastName := "Person", phone := "2",
        propertyInterest := "" }).1
      { id := 7, email := "a@b.c", firstname := "Old", lastname := "Name", phone := "1" }
      (by decide)).1.trans (by decide)
  · exact (createOrUpdateContact_email_dedup { contacts := [], nextId := 0 }
      { email := "x@y.z", firstName := "F", lastName := "L", phone := "3",
        propertyInterest := "" }).2 (by decide) |>.trans (by decide)

/-! ## `scheduleViewing` (`src/services/property.ts`)

Dates: `new Date(params.datetime)` is modelled by an abstract parse function
producing the observations the code makes — `getTime()` (ms since epoch) and
`getHours()` (local hour) — with `none` for an invalid date (`NaN`).
`new Date()` at call time is the `nowTime` timestamp, and `Date.now()` (used
for the confirmation number) is `nowMs`.  The inner `try/catch` around date
validation rethrows every thrown `Error` unchanged, so its
`Invalid datetime format` branch is unreachable; error messages below are
the thrown messages.  The HubSpot call is awaited inside `try { ... } catch
{ /* continue */ }`, so its outcome (the `hubspot` argument) never affects
the returned value; whether the call happens at all is recorded in
`hubspotCalled`. -/

/-- `ViewingScheduleParams`: the handler may receive any subset of fields. -/
structure ViewingScheduleParams where
  propertyId : Option String
  datetime : Option String
  clientName : Option String
  clientPhone : Option String
  clientEmail : Option String
deriving DecidableEq

/-- The observations the code makes of a parsed `Date`. -/
structure DateVal where
  time : Int
  hours : Int
deriving DecidableEq

/-- Ambient inputs of `scheduleViewing`: the date parser and the clock. -/
structure SVEnv where
  parse : String → Option DateVal
  nowTime : Int
  nowMs : Nat

/-- `propertyDetails` of the success response. -/
structure PropertyRef where
  id : String
  address : String
deriving DecidableEq

/-- `details` of `ViewingScheduleResponse`. -/
structure ViewingDetails where
  confirmationNumber : String
  scheduledTime : String
  propertyDetails : PropertyRef
deriving DecidableEq

/-- `ViewingScheduleResponse` from `src/types/vapi.ts`. -/
structure ViewingScheduleResponse where
  success : Bool
  message : String
  details : ViewingDetails
deriving DecidableEq

instance exceptDecEq {ε α : Type} [DecidableEq ε] [DecidableEq α] :
    DecidableEq (Except ε α)
  | .error e1, .error e2 =>
    if h : e1 = e2 then isTrue (by rw [h])
    else isFalse (by intro hh; cases hh; exact h rfl)
  | .error _, .ok _ => isFalse (by intro hh; cases hh)
  | .ok _, .error _ => isFalse (by intro hh; cases hh)
  | .ok a1, .ok a2 =>
    if h : a1 = a2 then isTrue (by rw [h])
    else isFalse (by intro hh; cases hh; exact h rfl)

/-- Result of a `scheduleViewing` call: the returned value or thrown error
message, plus whether `createOrUpdateContact` was invoked. -/
structure SVOutcome where
  result : Except String ViewingScheduleResponse
  hubspotCalled : Bool
deriving DecidableEq

/-- `` `VIEW-${Date.now().toString().slice(-6)}` ``. -/
def confirmationNumber (nowMs : Nat) : String :=
  let s := toString nowMs
  "VIEW-" ++ s.drop (s.length - 6)

/-- `scheduleViewing`, parameterized by the backing property list (the code
reads the module-level `mockProperties` with `find`, never writing it). -/
def scheduleViewingCore (db : List Property) (env : SVEnv)
    (_hubspot : Except String Unit) (params? : Option ViewingScheduleParams) :
    SVOutcome :=
  match params? with
  | none => { result := Except.error "No parameters provided", hubspotCalled := false }
  | some params =>
    match params.propertyId with
    | none => { result := Except.error "Property ID is required", hubspotCalled := false }
    | some pid =>
      if pid == "" then
        { result := Except.error "Property ID is required", hubspotCalled := false }
      else
        match params.datetime with
        | none => { result := Except.error "Datetime is required", hubspotCalled := false }
        | some dt =>
          if dt == "" then
            { result := Except.error "Datetime is required", hubspotCalled := false }
          else
            match params.clientName with
            | none =>
              { result := Except.error "Client name is required", hubspotCalled := false }
            | some nm =>
              if nm == "" then
                { result := Except.error "Client name is required", hubspotCalled := false }
              else
                match params.clientPhone with
                | none =>
                  { result := Except.error "Client phone is required",
                    hubspotCalled := false }
                | some ph =>
                  if ph == "" then
                    { result := Except.error "Client phone is required",
                      hubspotCalled := false }
                  else
                    match db.find? (fun p => p.id == pid) with
                    | none =>
                      { result :=
                          Except.error ("Property not found with ID: " ++ pid),
                        hubspotCalled := false }
                    | some property =>
                      match env.parse dt with
                      | none =>
                        { result := Except.error "Invalid date", hubspotCalled := false }
                      | some d =>
                        if d.time < env.nowTime then
                          { result :=
                              Except.error
                                "Cannot schedule a viewing in the past. Please select a future date and time.",
                            hubspotCalled := false }
                        else if d.hours < 9 || 17 ≤ d.hours then
                          { result :=
                              Except.error
                                "Viewings can only be scheduled between 9 AM and 5 PM.",
                            hubspotCalled := false }
                        else
                          { result :=
                              Except.ok
                                { success := true,
                                  message := "Viewing scheduled successfully",
                                  details :=
                                    { confirmationNumber := confirmationNumber env.nowMs,
                                      scheduledTime := dt,
                                      propertyDetails :=
                                        { id := property.id,
                                          address := property.address } } },
                            hubspotCalled := jsTruthyStr params.clientEmail }

/-- `scheduleViewing` as exported, over the module-level mock list. -/
def scheduleViewing (env : SVEnv) (hubspot : Except String Unit)
    (params? : Option ViewingScheduleParams) : SVOutcome :=
  scheduleViewingCore mockProperties env hubspot params?

/-! ## Claim C9: the implicit date-validation rule -/

/-- Claim C9: for a viewing request with all required fields present (as the
handlers supply them: non-empty strings) and a known `propertyId`,
`scheduleViewing` throws whenever the datetime fails to parse, parses to a
moment earlier than the current time, or parses to an hour before 9 or at or
after 17 — and returns the success response exactly when none of these
hold. -/
theorem scheduleViewing_date_validation
    (env : SVEnv) (hs : Except String Unit) (params : ViewingScheduleParams)
    (pid dt nm ph : String)
    (h1 : params.propertyId = some pid) (h2 : pid ≠ "")
    (h3 : params.datetime = some dt) (h4 : dt ≠ "")
    (h5 : params.clientName = some nm) (h6 : nm ≠ "")
    (h7 : params.clientPhone = some ph) (h8 : ph ≠ "")
    (h9 : ∃ p ∈ mockProperties, p.id = pid) :
    (∃ r, (scheduleViewing env hs (some params)).result = Except.ok r) ↔
      (∃ d, env.parse dt = some d ∧ env.nowTime ≤ d.time ∧
        9 ≤ d.hours ∧ d.hours < 17) := by
  obtain ⟨prop?, dt?, nm?, ph?, em?⟩ := params
  obtain rfl : prop? = some pid := h1
  obtain rfl : dt? = some dt := h3
  obtain rfl : nm? = some nm := h5
  obtain rfl : ph? = some ph := h7
  obtain ⟨q, hq⟩ : ∃ q, mockProperties.find? (fun p => p.id == pid) = some q := by
    obtain ⟨p0, hmem, hid⟩ := h9
    have : (mockProperties.find? (fun p => p.id == pid)).isSome := by
      rw [List.find?_isSome]
      exact ⟨p0, hmem, by simp [hid]⟩
    exact Option.isSome_iff_exists.mp this
  simp only [scheduleViewing, scheduleViewingCore]
  simp only [beq_iff_eq, h2, h4, h6, h8, if_neg, ite_false, hq]
  cases hparse : env.parse dt with
  | none => simp
  | some d =>
    by_cases hpast : d.time < env.nowTime
    · simp only [if_pos hpast]
      constructor
      · intro ⟨r, hr⟩; cases hr
      · intro ⟨d', hd', hle, _⟩
        cases hd'
        omega
    · simp only [if_neg hpast]
      by_cases hlow : d.hours < 9
      · have : (decide (d.hours < 9) || decide (17 ≤ d.hours)) = true := by
          simp [hlow]
        rw [if_pos this]
        constructor
        · intro ⟨r, hr⟩; cases hr
        · intro ⟨d', hd', _, hge, _⟩
          cases hd'
          omega
      · by_cases hhigh : 17 ≤ d.hours
        · have : (decide (d.hours < 9) || decide (17 ≤ d.hours)) = true := by
            simp [hhigh]
          rw [if_pos this]
          constructor
          · intro ⟨r, hr⟩; cases hr
          · intro ⟨d', hd', _, _, hlt⟩
            cases hd'
            omega
        · have : (decide (d.hours < 9) || decide (17 ≤ d.hours)) = false := by
            simp [hlow, hhigh]
          rw [this]
          simp only [Bool.false_eq_true, if_false]
          constructor
          · intro _
            exact ⟨d, rfl, by omega, by omega, by omega⟩
          · intro _
            exact ⟨_, rfl⟩

/-- A concrete date parser for witnesses: accepts a single datetime string,
mapped to a future, in-hours moment. -/
def demoParse : String → Option DateVal :=
  fun s =>
    if s == "2026-06-02T10:00:00" then some { time := 1000, hours := 10 } else none

/-- A concrete scheduling environment for witnesses. -/
def demoEnv (nowMs : Nat) : SVEnv :=
  { parse := demoParse, nowTime := 500, nowMs := nowMs }

/-- Witness for C9 at a concrete environment and request. -/
theorem scheduleViewing_date_validation_witness :
    (∃ r, (scheduleViewing (demoEnv 123456789) (Except.ok ())
        (some { propertyId := some "prop1", datetime := some "2026-06-02T10:00:00",
                clientName := some "Jane Doe", clientPhone := some "555-1234",
                clientEmail := none })).result = Except.ok r) ↔
      (∃ d, (demoEnv 123456789).parse "2026-06-02T10:00:00" = some d ∧
        (demoEnv 123456789).nowTime ≤ d.time ∧ 9 ≤ d.hours ∧ d.hours < 17) :=
  scheduleViewing_date_validation
    (demoEnv 123456789) (Except.ok ())
    { propertyId := some "prop1", datetime := some "2026-06-02T10:00:00",
      clientName := some "Jane Doe", clientPhone := some "555-1234",
      clientEmail := none }
    "prop1" "2026-06-02T10:00:00" "Jane Doe" "555-1234"
    rfl (by decide) rfl (by decide) rfl (by decide) rfl (by decide)
    ⟨{ id := "prop1", address := "123 Main St, San Francisco, CA",
       price := 1200000, bedrooms := 3, propertyType := "Single Family Home",
       description := "Beautiful home in prime location" },
     by decide, rfl⟩

/-! ## Claim C5: a HubSpot failure is swallowed in the scheduling path -/

/-- Claim C5: for a viewing request passing all validation (known
`propertyId`, future datetime within business hours, client name and phone
present), `scheduleViewing` returns the success response carrying a
confirmation number even when `createOrUpdateContact` raises: the outcome of
the HubSpot call never affects the returned value. -/
theorem scheduleViewing_swallows_hubspot_failure
    (env : SVEnv) (params : ViewingScheduleParams) (errMsg : String)
    (pid dt nm ph : String) (d : DateVal)
    (h1 : params.propertyId = some pid) (h2 : pid ≠ "")
    (h3 : params.datetime = some dt) (h4 : dt ≠ "")
    (h5 : params.clientName = some nm) (h6 : nm ≠ "")
    (h7 : params.clientPhone = some ph) (h8 : ph ≠ "")
    (h9 : ∃ p ∈ mockProperties, p.id = pid)
    (h10 : env.parse dt = some d) (h11 : env.nowTime ≤ d.time)
    (h12 : 9 ≤ d.hours) (h13 : d.hours < 17) :
    (scheduleViewing env (Except.error errMsg) (some params) =
      scheduleViewing env (Except.ok ()) (some params)) ∧
    ∃ r, (scheduleViewing env (Except.error errMsg) (some params)).result =
        Except.ok r ∧
      r.success = true ∧
      r.details.confirmationNumber = confirmationNumber env.nowMs := by
  refine ⟨rfl, ?_⟩
  obtain ⟨prop?, dt?, nm?, ph?, em?⟩ := params
  obtain rfl : prop? = some pid := h1
  obtain rfl : dt? = some dt := h3
  obtain rfl : nm? = some nm := h5
  obtain rfl : ph? = some ph := h7
  obtain ⟨q, hq⟩ : ∃ q, mockProperties.find? (fun p => p.id == pid) = some q := by
    obtain ⟨p0, hmem, hid⟩ := h9
    have : (mockProperties.find? (fun p => p.id == pid)).isSome := by
      rw [List.find?_isSome]
      exact ⟨p0, hmem, by simp [hid]⟩
    exact Option.isSome_iff_exists.mp this
  refine ⟨{ success := true, message := "Viewing scheduled successfully",
            details := { confirmationNumber := confirmationNumber env.nowMs,
                         scheduledTime := dt,
                         propertyDetails := { id := q.id, address := q.address } } },
          ?_, rfl, rfl⟩
  simp only [scheduleViewing, scheduleViewingCore]
  simp only [beq_iff_eq, h2, h4, h6, h8, if_neg, ite_false, hq, h10]
  rw [if_neg (by omega)]
  rw [if_neg (by simp; omega)]

/-- Witness for C5: a concrete passing request whose HubSpot call fails. -/
theorem scheduleViewing_swallows_hubspot_failure_witness :
    (scheduleViewing (demoEnv 1717000000000)
        (Except.error "HubSpot API unreachable")
        (some { propertyId := some "prop2", datetime := some "2026-06-02T10:00:00",
                clientName := some "John Smith", clientPhone := some "555-9876",
                clientEmail := some "john@example.com" }) =
      scheduleViewing (demoEnv 1717000000000) (Except.ok ())
        (some { propertyId := some "prop2", datetime := some "2026-06-02T10:00:00",
                clientName := some "John Smith", clientPhone := some "555-9876",
                clientEmail := some "john@example.com" })) ∧
    ∃ r, (scheduleViewing (demoEnv 1717000000000)
        (Except.error "HubSpot API unreachable")
        (some { propertyId := some "prop2", datetime := some "2026-06-02T10:00:00",
                clientName := some "John Smith", clientPhone := some "555-9876",
                clientEmail := some "john@example.com" })).result = Except.ok r ∧
      r.success = true ∧
      r.details.confirmationNumber = confirmationNumber (demoEnv 1717000000000).nowMs :=
  scheduleViewing_swallows_hubspot_failure
    (demoEnv 1717000000000)
    { propertyId := some "prop2", datetime := some "2026-06-02T10:00:00",
      clientName := some "John Smith", clientPhone := some "555-9876",
      clientEmail := some "john@example.com" }
    "HubSpot API unreachable"
    "prop2" "2026-06-02T10:00:00" "John Smith" "555-9876"
    { time := 1000, hours := 10 }
    rfl (by decide) rfl (by decide) rfl (by decide) rfl (by decide)
    ⟨{ id := "prop2", address := "456 Market St, San Francisco, CA",
       price := 800000, bedrooms := 2, propertyType := "Condo",
       description := "Modern condo with city views" },
     by decide, rfl⟩
    (by decide) (by decide) (by decide) (by decide)

/-! ## Webhook request shapes and extraction
(`src/routes/property.ts`, `src/routes/hubspot.ts`)

A request body is modelled by the fields the handlers read: the nested VAPI
shape `message.toolCalls[0]` (presence of `message` and `toolCalls` is one
`Option`, and `toolCalls[0].function.arguments` is the `arguments` field of
a tool call, taken here in its object form — the JSON-string variant that
`JSON.parse` handles is not modelled), the flat shape's top-level
`toolCallId`/`parameters`, and — for the fallback branches of
schedule-viewing and sync-contact — the body's own top-level parameter
fields, collected in `direct`. -/

/-- `message.toolCalls[i]`: an id (possibly absent or empty) and the
`function.arguments` object. -/
structure ToolCallObj (α : Type) where
  id : Option String
  arguments : α
deriving DecidableEq

/-- The fields of a webhook request body that the handlers read. -/
structure VapiBody (α : Type) where
  toolCalls : Option (List (ToolCallObj α))
  toolCallId : Option String
  parameters : Option α
  direct : α
deriving DecidableEq

/-- `body.message && body.message.toolCalls && body.message.toolCalls.length > 0`. -/
def nestedShape {α : Type} (b : VapiBody α) : Bool :=
  match b.toolCalls with
  | some (_ :: _) => true
  | _ => false

/-- `body.parameters && body.toolCallId` (both truthy). -/
def flatShape {α : Type} (b : VapiBody α) : Bool :=
  b.parameters.isSome && jsTruthyStr b.toolCallId

/-- Contact parameters consumed by the sync-contact handler. -/
structure ContactParams where
  email : Option String
  firstName : Option String
  lastName : Option String
  phone : Option String
  propertyInterest : Option String
deriving DecidableEq

/-- The arguments object of a property-search tool call as the two handler
branches read it: `bedrooms`, `location`, `propertyType`, and a `priceRange`
object that may carry lowercase `min`/`max` keys (read by
`searchProperties`) and capitalized `Min`/`Max` keys (read by the nested
branch of the route). -/
structure PriceRangeArg where
  minKey : Option Int
  maxKey : Option Int
  capMinKey : Option Int
  capMaxKey : Option Int
deriving DecidableEq

/-- Search arguments as sent by the webhook. -/
structure SearchArgs where
  bedrooms : Option Int
  location : Option String
  propertyType : Option String
  priceRange : Option PriceRangeArg
deriving DecidableEq

/-- Nested-branch conversion in POST `/search`: copies `bedrooms`,
`location`, `propertyType`; when `priceRange` is present, builds
`{ min: Min ? Number(Min) : 0, max: Max ? Number(Max) : 10000000 }` from the
capitalized keys (`0` is falsy, so a zero bound falls to the default). -/
def searchParamsOfArgs (args : SearchArgs) : PropertySearchParams :=
  { bedrooms := args.bedrooms
    location := args.location
    propertyType := args.propertyType
    priceRange := args.priceRange.map (fun pr =>
      { min := some (match pr.capMinKey with
          | some v => if v == 0 then 0 else v
          | none => 0),
        max := some (match pr.capMaxKey with
          | some v => if v == 0 then 10000000 else v
          | none => 10000000) }) }

/-- Flat-branch consumption in POST `/search`: `parameters` is forwarded
verbatim, so `searchProperties` reads only the lowercase `min`/`max` keys of
`priceRange`. -/
def searchParamsFlat (args : SearchArgs) : PropertySearchParams :=
  { bedrooms := args.bedrooms
    location := args.location
    propertyType := args.propertyType
    priceRange := args.priceRange.map (fun pr => { min := pr.minKey, max := pr.maxKey }) }

/-- Parameter extraction of POST `/search`: nested shape, else flat shape,
else 400 `Invalid request format`; afterwards a falsy `toolCallId` is
rejected with 400 `Missing toolCallId in request` (reachable only from the
nested branch). -/
def extractSearch (b : VapiBody SearchArgs) :
    Except String (String × PropertySearchParams) :=
  match b.toolCalls with
  | some (tc :: _) =>
    match tc.id with
    | some tid =>
      if tid == "" then Except.error "Missing toolCallId in request"
      else Except.ok (tid, searchParamsOfArgs tc.arguments)
    | none => Except.error "Missing toolCallId in request"
  | _ =>
    match b.toolCallId, b.parameters with
    | some tid, some args =>
      if tid == "" then Except.error "Invalid request format"
      else Except.ok (tid, searchParamsFlat args)
    | _, _ => Except.error "Invalid request format"

/-- Parameter extraction shared by POST `/schedule-viewing` and POST
`/sync-contact`: nested shape, else flat shape, else the fallback branch
`toolCallId = body.toolCallId || 'unknown'` with the body's own top-level
fields as parameters; afterwards a falsy `toolCallId` is rejected with 400
`Missing toolCallId in request` (reachable only from the nested branch). -/
def extractWithFallback {α : Type} (b : VapiBody α) : Except String (String × α) :=
  match b.toolCalls with
  | some (tc :: _) =>
    match tc.id with
    | some tid =>
      if tid == "" then Except.error "Missing toolCallId in request"
      else Except.ok (tid, tc.arguments)
    | none => Except.error "Missing toolCallId in request"
  | _ =>
    match b.parameters, b.toolCallId with
    | some p, some tid =>
      if tid == "" then Except.ok ("unknown", b.direct)
      else Except.ok (tid, p)
    | _, _ => Except.ok (jsOrUnknown b.toolCallId, b.direct)

/-- Extraction of POST `/schedule-viewing`. -/
def extractSchedule (b : VapiBody ViewingScheduleParams) :
    Except String (String × ViewingScheduleParams) :=
  extractWithFallback b

/-- Extraction of POST `/sync-contact` (its fallback branch picks exactly
the five contact fields off the body, i.e. `direct`). -/
def extractSync (b : VapiBody ContactParams) :
    Except String (String × ContactParams) :=
  extractWithFallback b

/-! ## Route handlers -/

/-- Responses of POST `/search`.  `ok` is the 200 envelope
`{ results: [{ toolCallId, result: { success: true, properties } }] }` —
a one-element array by construction; `badRequest` is a plain 400
`{ error }` body.  (The route's `catch` branch cannot fire: the service
call is total.) -/
inductive SearchRouteResp
  | ok (toolCallId : String) (properties : List Property)
  | badRequest (error : String)
deriving DecidableEq

/-- POST `/search`. -/
def searchRoute (b : VapiBody SearchArgs) : SearchRouteResp :=
  match extractSearch b with
  | Except.error e => SearchRouteResp.badRequest e
  | Except.ok (tid, params) =>
    SearchRouteResp.ok tid (searchProperties params).properties

/-- Responses of POST `/schedule-viewing`: the 200 envelope with the
service result, the 500 envelope
`{ results: [{ toolCallId, result: { success: false, message, error } }] }`
from the inner `catch`, and the plain 400 `{ error }` body.  Every envelope
has exactly one element by construction. -/
inductive ScheduleRouteResp
  | ok (toolCallId : String) (result : ViewingScheduleResponse)
  | schedFail (toolCallId : String) (error : String)
  | badRequest (error : String)
deriving DecidableEq

/-- POST `/schedule-viewing`. -/
def scheduleRoute (env : SVEnv) (hubspot : Except String Unit)
    (b : VapiBody ViewingScheduleParams) : ScheduleRouteResp :=
  match extractSchedule b with
  | Except.error e => ScheduleRouteResp.badRequest e
  | Except.ok (tid, vp) =>
    match (scheduleViewing env hubspot (some vp)).result with
    | Except.ok r => ScheduleRouteResp.ok tid r
    | Except.error msg => ScheduleRouteResp.schedFail tid msg

/-- Responses of POST `/sync-contact`: the 200 envelope on success, the 400
envelope `{ success: false, error: 'Email is required' }`, the 500 envelope
from the route-level `catch` — whose `toolCallId` is recomputed as
`req.body.toolCallId || 'unknown'` — and the plain 400 `{ error }` body.
Every envelope has exactly one element by construction. -/
inductive SyncRouteResp
  | ok (toolCallId : String) (contactId : Nat) (message : String)
  | emailMissing (toolCallId : String)
  | syncFail (toolCallId : String) (details : String)
  | badRequest (error : String)
deriving DecidableEq

/-- Result of POST `/sync-contact`: the response plus whether
`createOrUpdateContact` was invoked. -/
structure SyncOutcome where
  resp : SyncRouteResp
  hubspotCalled : Bool
deriving DecidableEq

/-- POST `/sync-contact`, parameterized by the awaited outcome of
`createOrUpdateContact` (which may reject). -/
def syncRoute (call : ContactData → Except String ContactResult)
    (b : VapiBody ContactParams) : SyncOutcome :=
  match extractSync b with
  | Except.error e => { resp := SyncRouteResp.badRequest e, hubspotCalled := false }
  | Except.ok (tid, cp) =>
    match cp.email with
    | none => { resp := SyncRouteResp.emailMissing tid, hubspotCalled := false }
    | some e =>
      if e == "" then { resp := SyncRouteResp.emailMissing tid, hubspotCalled := false }
      else
        match call { email := e, firstName := cp.firstName.getD "",
                     lastName := cp.lastName.getD "", phone := cp.phone.getD "",
                     propertyInterest := cp.propertyInterest.getD "" } with
        | Except.ok r =>
          { resp := SyncRouteResp.ok tid r.id
              (if r.created then "Contact created successfully"
               else "Contact updated successfully"),
            hubspotCalled := true }
        | Except.error msg =>
          { resp := SyncRouteResp.syncFail (jsOrUnknown b.toolCallId) msg,
            hubspotCalled := true }

/-- The `toolCallId` carried by a search response envelope. -/
def searchRespId : SearchRouteResp → Option String
  | SearchRouteResp.ok tid _ => some tid
  | SearchRouteResp.badRequest _ => none

/-- The `toolCallId` carried by a schedule-viewing response envelope. -/
def schedRespId : ScheduleRouteResp → Option String
  | ScheduleRouteResp.ok tid _ => some tid
  | ScheduleRouteResp.schedFail tid _ => some tid
  | ScheduleRouteResp.badRequest _ => none

/-- The `toolCallId` carried by a sync-contact response envelope. -/
def syncRespId : SyncRouteResp → Option String
  | SyncRouteResp.ok tid _ _ => some tid
  | SyncRouteResp.emailMissing tid => some tid
  | SyncRouteResp.syncFail tid _ => some tid
  | SyncRouteResp.badRequest _ => none

/-- Empty search arguments (a body with no top-level parameter fields). -/
def emptySearchArgs : SearchArgs :=
  { bedrooms := none, location := none, propertyType := none, priceRange := none }

/-- Empty viewing parameters. -/
def emptyViewing : ViewingScheduleParams :=
  { propertyId := none, datetime := none, clientName := none, clientPhone := none,
    clientEmail := none }

/-- Empty contact parameters. -/
def emptyContact : ContactParams :=
  { email := none, firstName := none, lastName := none, phone := none,
    propertyInterest := none }

/-- A request in the nested VAPI shape, with no top-level fields. -/
def nestedBody {α : Type} (tid : String) (args : α) (dflt : α) : VapiBody α :=
  { toolCalls := some [{ id := some tid, arguments := args }],
    toolCallId := none, parameters := none, direct := dflt }

/-- A request in the flat shape, with no nested message. -/
def flatBody {α : Type} (tid : String) (args : α) (dflt : α) : VapiBody α :=
  { toolCalls := none, toolCallId := some tid, parameters := some args,
    direct := dflt }

/-! ## Claim C1: nested and flat shapes extract the same id and arguments -/

/-- Claim C1, counterexample: the same tool-call id and the same argument
object (carrying `priceRange: { min: 100, max: 200 }`) extract differently
in POST `/search`: the nested branch rebuilds `priceRange` from the
capitalized `Min`/`Max` keys with defaults `0`/`10000000`, while the flat
branch forwards `min`/`max` unchanged. -/
theorem extract_same_args_counterexample :
    (extractSearch
        (nestedBody "call_1"
          { bedrooms := none, location := none, propertyType := none,
            priceRange := some { minKey := some 100, maxKey := some 200,
                                 capMinKey := none, capMaxKey := none } }
          emptySearchArgs) =
      Except.ok ("call_1",
        { priceRange := some { min := some 0, max := some 10000000 },
          bedrooms := none, location := none, propertyType := none })) ∧
    (extractSearch
        (flatBody "call_1"
          { bedrooms := none, location := none, propertyType := none,
            priceRange := some { minKey := some 100, maxKey := some 200,
                                 capMinKey := none, capMaxKey := none } }
          emptySearchArgs) =
      Except.ok ("call_1",
        { priceRange := some { min := some 100, max := some 200 },
          bedrooms := none, location := none, propertyType := none })) ∧
    extractSearch
        (nestedBody "call_1"
          { bedrooms := none, location := none, propertyType := none,
            priceRange := some { minKey := some 100, maxKey := some 200,
                                 capMinKey := none, capMaxKey := none } }
          emptySearchArgs) ≠
      extractSearch
        (flatBody "call_1"
          { bedrooms := none, location := none, propertyType := none,
            priceRange := some { minKey := some 100, maxKey := some 200,
                                 capMinKey := none, capMaxKey := none } }
          emptySearchArgs) := by
  refine ⟨?_, ?_, ?_⟩ <;> decide

/-- A search argument object whose `priceRange` carries only the lowercase
keys: the two branches of POST `/search` extract it differently. -/
def divergingArgs : SearchArgs :=
  { bedrooms := none, location := none, propertyType := none,
    priceRange := some { minKey := some 100, maxKey := some 200,
                         capMinKey := none, capMaxKey := none } }

/-- Claim C1, amended: for every nonempty tool-call id and argument object,
the nested and flat shapes cause the handler to extract the same tool-call
id in all three handlers, and the same argument values in the
schedule-viewing and sync-contact handlers.  In the property-search handler
the two shapes always agree on the extracted `bedrooms`, `location` and
`propertyType`, and extract identical whole parameter objects whenever the
arguments carry no `priceRange`; a present `priceRange` is read through
different keys by the two branches (nested: `Min`/`Max` with defaults
`0`/`10000000`; flat: `min`/`max` verbatim), and there are argument objects
with a `priceRange` on which the two branches extract different
parameters. -/
theorem extract_same_args_amended (tid : String) (htid : tid ≠ "") :
    (∀ args : SearchArgs,
      extractSearch (nestedBody tid args emptySearchArgs) =
        Except.ok (tid, searchParamsOfArgs args) ∧
      extractSearch (flatBody tid args emptySearchArgs) =
        Except.ok (tid, searchParamsFlat args) ∧
      (searchParamsOfArgs args).bedrooms = (searchParamsFlat args).bedrooms ∧
      (searchParamsOfArgs args).location = (searchParamsFlat args).location ∧
      (searchParamsOfArgs args).propertyType = (searchParamsFlat args).propertyType) ∧
    (∀ args : SearchArgs, args.priceRange = none →
      searchParamsOfArgs args = searchParamsFlat args) ∧
    (∃ args : SearchArgs,
      extractSearch (nestedBody tid args emptySearchArgs) ≠
        extractSearch (flatBody tid args emptySearchArgs)) ∧
    (∀ vp : ViewingScheduleParams,
      extractSchedule (nestedBody tid vp emptyViewing) = Except.ok (tid, vp) ∧
      extractSchedule (flatBody tid vp emptyViewing) = Except.ok (tid, vp)) ∧
    (∀ cp : ContactParams,
      extractSync (nestedBody tid cp emptyContact) = Except.ok (tid, cp) ∧
      extractSync (flatBody tid cp emptyContact) = Except.ok (tid, cp)) := by
  refine ⟨fun args => ⟨?_, ?_, rfl, rfl, rfl⟩, fun args hpr => ?_, ?_,
    fun vp => ⟨?_, ?_⟩, fun cp => ⟨?_, ?_⟩⟩
  · simp [extractSearch, nestedBody, htid]
  · simp [extractSearch, flatBody, htid]
  · simp [searchParamsOfArgs, searchParamsFlat, hpr]
  · refine ⟨divergingArgs, ?_⟩
    have h1 : extractSearch (nestedBody tid divergingArgs emptySearchArgs) =
        Except.ok (tid, searchParamsOfArgs divergingArgs) := by
      simp [extractSearch, nestedBody, htid]
    have h2 : extractSearch (flatBody tid divergingArgs emptySearchArgs) =
        Except.ok (tid, searchParamsFlat divergingArgs) := by
      simp [extractSearch, flatBody, htid]
    rw [h1, h2]
    intro heq
    injection heq with h
    have hps : searchParamsOfArgs divergingArgs = searchParamsFlat divergingArgs :=
      congrArg Prod.snd h
    exact absurd hps (by decide)
  · simp [extractSchedule, extractWithFallback, nestedBody, htid]
  · simp [extractSchedule, extractWithFallback, flatBody, htid]
  · simp [extractSync, extractWithFallback, nestedBody, htid]
  · simp [extractSync, extractWithFallback, flatBody, htid]

/-- Witness for C1 (amended) at a concrete id and argument object. -/
theorem extract_same_args_amended_witness :
    extractSchedule (nestedBody "call_2" emptyViewing emptyViewing) =
        Except.ok ("call_2", emptyViewing) ∧
      extractSchedule (flatBody "call_2" emptyViewing emptyViewing) =
        Except.ok ("call_2", emptyViewing) :=
  (extract_same_args_amended "call_2" (by decide)).2.2.2.1 emptyViewing

/-! ## Claim C4: the response envelope carries the extracted toolCallId -/

/-- Claim C4, counterexample: a nested-shape sync-contact request whose
HubSpot call rejects is answered with an envelope whose single element
carries `toolCallId: 'unknown'` (recomputed from the absent top-level
`toolCallId` field in the `catch`), not the extracted id `call_3`. -/
theorem envelope_toolCallId_counterexample :
    (extractSync
        (nestedBody "call_3"
          { email := some "a@b.c", firstName := none, lastName := none,
            phone := none, propertyInterest := none }
          emptyContact) =
      Except.ok ("call_3",
        { email := some "a@b.c", firstName := none, lastName := none,
          phone := none, propertyInterest := none })) ∧
    ((syncRoute (fun _ => Except.error "network error")
        (nestedBody "call_3"
          { email := some "a@b.c", firstName := none, lastName := none,
            phone := none, propertyInterest := none }
          emptyContact)).resp =
      SyncRouteResp.syncFail "unknown" "network error") ∧
    syncRespId ((syncRoute (fun _ => Except.error "network error")
        (nestedBody "call_3"
          { email := some "a@b.c", firstName := none, lastName := none,
            phone := none, propertyInterest := none }
          emptyContact)).resp) ≠ some "call_3" := by
  refine ⟨?_, ?_, ?_⟩ <;> decide

/-- Claim C4, amended: every accepted request is answered with the
one-element envelope `{ results: [{ toolCallId, result }] }`; the element's
`toolCallId` equals the extracted id in the search handler (always) and the
schedule-viewing handler (success and failure alike), and in the
sync-contact handler on success and on the email-validation failure — but
when the sync-contact HubSpot call rejects, the element's `toolCallId` is
the request's top-level `toolCallId` field defaulted to `'unknown'`. -/
theorem envelope_toolCallId_amended :
    (∀ (b : VapiBody SearchArgs) (tid : String) (p : PropertySearchParams),
      extractSearch b = Except.ok (tid, p) →
      searchRoute b = SearchRouteResp.ok tid (searchProperties p).properties) ∧
    (∀ (env : SVEnv) (hs : Except String Unit) (b : VapiBody ViewingScheduleParams)
      (tid : String) (vp : ViewingScheduleParams),
      extractSchedule b = Except.ok (tid, vp) →
      schedRespId (scheduleRoute env hs b) = some tid) ∧
    (∀ (call : ContactData → Except String ContactResult) (b : VapiBody ContactParams)
      (tid : String) (cp : ContactParams),
      extractSync b = Except.ok (tid, cp) →
      syncRespId (syncRoute call b).resp = some tid ∨
      ∃ msg, (syncRoute call b).resp =
        SyncRouteResp.syncFail (jsOrUnknown b.toolCallId) msg) := by
  refine ⟨?_, ?_, ?_⟩
  · intro b tid p h
    simp [searchRoute, h]
  · intro env hs b tid vp h
    simp only [scheduleRoute, h]
    cases (scheduleViewing env hs (some vp)).result <;> simp [schedRespId]
  · intro call b tid cp h
    simp only [syncRoute, h]
    split
    · exact Or.inl rfl
    · split
      · exact Or.inl rfl
      · split
        · exact Or.inl rfl
        · exact Or.inr ⟨_, rfl⟩

/-- Witness for C4 (amended): a concrete accepted flat-shape search request. -/
theorem envelope_toolCallId_amended_witness :
    searchRoute (flatBody "call_4" emptySearchArgs emptySearchArgs) =
      SearchRouteResp.ok "call_4"
        (searchProperties (searchParamsFlat emptySearchArgs)).properties :=
  envelope_toolCallId_amended.1 (flatBody "call_4" emptySearchArgs emptySearchArgs)
    "call_4" (searchParamsFlat emptySearchArgs) (by decide)

/-! ## Claim C10: where the `Missing toolCallId` 400 can arise -/

/-- The fallback branch of `extractWithFallback` always yields a truthy id,
so it never produces the `Missing toolCallId` rejection. -/
theorem extractWithFallback_fallback {α : Type} (b : VapiBody α)
    (h1 : nestedShape b = false) (h2 : flatShape b = false) :
    extractWithFallback b = Except.ok (jsOrUnknown b.toolCallId, b.direct) := by
  obtain ⟨tcs, tid?, ps, dflt⟩ := b
  cases tcs with
  | some l =>
    cases l with
    | nil =>
      cases ps with
      | none => rfl
      | some p =>
        cases tid? with
        | none => rfl
        | some t =>
          have ht : t = "" := by
            simp [flatShape, jsTruthyStr] at h2; exact h2
          subst ht
          rfl
    | cons tc rest => simp [nestedShape] at h1
  | none =>
    cases ps with
    | none => rfl
    | some p =>
      cases tid? with
      | none => rfl
      | some t =>
        have ht : t = "" := by
          simp [flatShape, jsTruthyStr] at h2; exact h2
        subst ht
        rfl

/-- The `Missing toolCallId` rejection implies a nested-shape request whose
first tool call has a falsy id. -/
theorem extractWithFallback_error {α : Type} (b : VapiBody α)
    (h : extractWithFallback b = Except.error "Missing toolCallId in request") :
    ∃ tc rest, b.toolCalls = some (tc :: rest) ∧
      (tc.id = none ∨ tc.id = some "") := by
  obtain ⟨tcs, tid?, ps, dflt⟩ := b
  cases tcs with
  | some l =>
    cases l with
    | cons tc rest =>
      refine ⟨tc, rest, rfl, ?_⟩
      simp only [extractWithFallback] at h
      cases hid : tc.id with
      | none => exact Or.inl rfl
      | some t =>
        by_cases he : t = ""
        · exact Or.inr (by rw [he])
        · exfalso
          rw [hid] at h
          simp [he] at h
    | nil =>
      exfalso
      simp only [extractWithFallback] at h
      cases ps with
      | none => cases tid? <;> simp at h
      | some p =>
        cases tid? with
        | none => simp at h
        | some t =>
          by_cases he : t = "" <;> simp [he] at h
  | none =>
    exfalso
    simp only [extractWithFallback] at h
    cases ps with
    | none => cases tid? <;> simp at h
    | some p =>
      cases tid? with
      | none => simp at h
      | some t =>
        by_cases he : t = "" <;> simp [he] at h

/-- Claim C10, counterexample: a nested sync-contact request whose
`message.toolCalls[0].id` is the empty string — present, not absent — is
also answered with the 400 `Missing toolCallId in request`, so that 400 does
not arise solely from requests whose id is absent. -/
theorem missing_toolCallId_counterexample :
    ((syncRoute (fun _ => Except.ok { id := 1, created := true, updated := false })
        { toolCalls := some [{ id := some "", arguments := emptyContact }],
          toolCallId := none, parameters := none, direct := emptyContact }).resp =
      SyncRouteResp.badRequest "Missing toolCallId in request") ∧
    ({ id := some "", arguments := emptyContact } : ToolCallObj ContactParams).id ≠
      none := by
  refine ⟨?_, ?_⟩ <;> decide

/-- Claim C10, amended: in the sync-contact and schedule-viewing handlers, a
request matching neither recognized shape is processed with `toolCallId`
defaulted through `body.toolCallId || 'unknown'`, so the 400
`Missing toolCallId in request` is unreachable from the fallback branch; that
400 arises exactly from a nested-shape request whose
`message.toolCalls[0].id` is absent or the empty string. -/
theorem missing_toolCallId_amended :
    (∀ b : VapiBody ContactParams, nestedShape b = false → flatShape b = false →
      extractSync b = Except.ok (jsOrUnknown b.toolCallId, b.direct)) ∧
    (∀ b : VapiBody ContactParams,
      extractSync b = Except.error "Missing toolCallId in request" →
      ∃ tc rest, b.toolCalls = some (tc :: rest) ∧
        (tc.id = none ∨ tc.id = some "")) ∧
    (∀ b : VapiBody ViewingScheduleParams, nestedShape b = false → flatShape b = false →
      extractSchedule b = Except.ok (jsOrUnknown b.toolCallId, b.direct)) ∧
    (∀ b : VapiBody ViewingScheduleParams,
      extractSchedule b = Except.error "Missing toolCallId in request" →
      ∃ tc rest, b.toolCalls = some (tc :: rest) ∧
        (tc.id = none ∨ tc.id = some "")) :=
  ⟨fun b => extractWithFallback_fallback b,
   fun b => extractWithFallback_error b,
   fun b => extractWithFallback_fallback b,
   fun b => extractWithFallback_error b⟩

/-- Witness for C10 (amended): a body matching neither shape is processed
with the id defaulted to `unknown`. -/
theorem missing_toolCallId_amended_witness :
    extractSync
        { toolCalls := none, toolCallId := none, parameters := none,
          direct := emptyContact } =
      Except.ok (jsOrUnknown
        ({ toolCalls := none, toolCallId := none, parameters := none,
           direct := emptyContact } : VapiBody ContactParams).toolCallId,
        emptyContact) :=
  missing_toolCallId_amended.1
    { toolCalls := none, toolCallId := none, parameters := none,
      direct := emptyContact }
    (by decide) (by decide)

/-! ## Claim C6: required-field validation -/

/-- Claim C6, counterexample: a nested sync-contact request whose extracted
parameters lack `email` but whose `message.toolCalls[0].id` is absent is
answered with the plain 400 `Missing toolCallId in request` — not with the
`success: false` / `Email is required` envelope the claim promises for
every request lacking email. -/
theorem email_required_counterexample :
    ((syncRoute (fun _ => Except.ok { id := 1, created := true, updated := false })
        { toolCalls := some [{ id := none, arguments := emptyContact }],
          toolCallId := none, parameters := none, direct := emptyContact }).resp =
      SyncRouteResp.badRequest "Missing toolCallId in request") ∧
    emptyContact.email = none ∧
    ((syncRoute (fun _ => Except.ok { id := 1, created := true, updated := false })
        { toolCalls := some [{ id := none, arguments := emptyContact }],
          toolCallId := none, parameters := none, direct := emptyContact }).resp ≠
      SyncRouteResp.emailMissing "unknown") := by
  refine ⟨?_, ?_, ?_⟩ <;> decide

/-- Claim C6, amended: `scheduleViewing` validates the four required string
fields `propertyId`, `datetime`, `clientName`, `clientPhone` with JS
truthiness tests in source order, so whenever any of them is absent or the
empty string it raises the error naming the first absent-or-empty one and
performs no scheduling and no HubSpot call; and a sync-contact request that
passes the `toolCallId` check and whose extracted parameters have an absent
or empty `email` is answered with the `success: false` /
`Email is required` envelope without calling HubSpot. -/
theorem required_fields_amended :
    (∀ (env : SVEnv) (hs : Except String Unit) (params : ViewingScheduleParams),
      (jsTruthyStr params.propertyId = false →
        scheduleViewing env hs (some params) =
          { result := Except.error "Property ID is required", hubspotCalled := false }) ∧
      (jsTruthyStr params.propertyId = true → jsTruthyStr params.datetime = false →
        scheduleViewing env hs (some params) =
          { result := Except.error "Datetime is required", hubspotCalled := false }) ∧
      (jsTruthyStr params.propertyId = true → jsTruthyStr params.datetime = true →
        jsTruthyStr params.clientName = false →
        scheduleViewing env hs (some params) =
          { result := Except.error "Client name is required", hubspotCalled := false }) ∧
      (jsTruthyStr params.propertyId = true → jsTruthyStr params.datetime = true →
        jsTruthyStr params.clientName = true → jsTruthyStr params.clientPhone = false →
        scheduleViewing env hs (some params) =
          { result := Except.error "Client phone is required", hubspotCalled := false })) ∧
    (∀ (call : ContactData → Except String ContactResult) (b : VapiBody ContactParams)
      (tid : String) (cp : ContactParams),
      extractSync b = Except.ok (tid, cp) → jsTruthyStr cp.email = false →
      syncRoute call b =
        { resp := SyncRouteResp.emailMissing tid, hubspotCalled := false }) := by
  constructor
  · intro env hs params
    obtain ⟨p?, d?, n?, f?, e?⟩ := params
    refine ⟨?_, ?_, ?_, ?_⟩
    · intro h
      cases p? with
      | none => rfl
      | some s =>
        have hs' : s = "" := by
          by_contra hne
          simp [jsTruthyStr, hne] at h
        subst hs'
        rfl
    · intro h1 h2
      cases p? with
      | none => simp [jsTruthyStr] at h1
      | some s =>
        have hsne : s ≠ "" := fun hc => by subst hc; simp [jsTruthyStr] at h1
        cases d? with
        | none => simp [scheduleViewing, scheduleViewingCore, hsne]
        | some t =>
          have ht : t = "" := by
            by_contra hne
            simp [jsTruthyStr, hne] at h2
          subst ht
          simp [scheduleViewing, scheduleViewingCore, hsne]
    · intro h1 h2 h3
      cases p? with
      | none => simp [jsTruthyStr] at h1
      | some s =>
        have hsne : s ≠ "" := fun hc => by subst hc; simp [jsTruthyStr] at h1
        cases d? with
        | none => simp [jsTruthyStr] at h2
        | some t =>
          have htne : t ≠ "" := fun hc => by subst hc; simp [jsTruthyStr] at h2
          cases n? with
          | none => simp [scheduleViewing, scheduleViewingCore, hsne, htne]
          | some u =>
            have hu : u = "" := by
              by_contra hne
              simp [jsTruthyStr, hne] at h3
            subst hu
            simp [scheduleViewing, scheduleViewingCore, hsne, htne]
    · intro h1 h2 h3 h4
      cases p? with
      | none => simp [jsTruthyStr] at h1
      | some s =>
        have hsne : s ≠ "" := fun hc => by subst hc; simp [jsTruthyStr] at h1
        cases d? with
        | none => simp [jsTruthyStr] at h2
        | some t =>
          have htne : t ≠ "" := fun hc => by subst hc; simp [jsTruthyStr] at h2
          cases n? with
          | none => simp [jsTruthyStr] at h3
          | some u =>
            have hune : u ≠ "" := fun hc => by subst hc; simp [jsTruthyStr] at h3
            cases f? with
            | none => simp [scheduleViewing, scheduleViewingCore, hsne, htne, hune]
            | some v =>
              have hv : v = "" := by
                by_contra hne
                simp [jsTruthyStr, hne] at h4
              subst hv
              simp [scheduleViewing, scheduleViewingCore, hsne, htne, hune]
  · intro call b tid cp hex he
    simp only [syncRoute, hex]
    cases hem : cp.email with
    | none => rfl
    | some e =>
      have he' : e = "" := by
        rw [hem] at he
        by_contra hne
        simp [jsTruthyStr, hne] at he
      subst he'
      rfl

/-- Witness for C6 (amended): a request whose `propertyId` is present but
whose `datetime` is the empty string, and a sync-contact request lacking
`email`. -/
theorem required_fields_amended_witness :
    (scheduleViewing (demoEnv 0) (Except.ok ())
        (some { propertyId := some "prop1", datetime := some "",
                clientName := none, clientPhone := some "555",
                clientEmail := none }) =
      { result := Except.error "Datetime is required", hubspotCalled := false }) ∧
    (syncRoute (fun _ => Except.ok { id := 1, created := true, updated := false })
        (flatBody "call_5" emptyContact emptyContact) =
      { resp := SyncRouteResp.emailMissing "call_5", hubspotCalled := false }) :=
  ⟨(required_fields_amended.1 (demoEnv 0) (Except.ok ())
      { propertyId := some "prop1", datetime := some "", clientName := none,
        clientPhone := some "555", clientEmail := none }).2.1
      (by decide) (by decide),
   required_fields_amended.2
      (fun _ => Except.ok { id := 1, created := true, updated := false })
      (flatBody "call_5" emptyContact emptyContact) "call_5" emptyContact
      (by decide) (by decide)⟩

/-! ## Claim C7: inbound authentication is disabled
(`src/middleware/auth.ts`, `src/server.ts`) -/

/-- The request headers the middleware looks at. -/
structure HeadersModel where
  xVapiSecret : Option String
  contentType : Option String
  userAgent : Option String
deriving DecidableEq

/-- What an Express middleware can do with a request: pass it on, or answer
it with a status and an error body. -/
inductive MiddlewareStep
  | next
  | respond (status : Nat) (error : String)
deriving DecidableEq

/-- `validateVapiSecret`: logs the headers and unconditionally calls
`next()`; the token comparison (403 on mismatch) is commented out in the
source. -/
def validateVapiSecret (_h : HeadersModel) : MiddlewareStep := MiddlewareStep.next

/-- A request entering the `/api/vapi` subtree: headers plus a body. -/
structure VapiRequest (α : Type) where
  headers : HeadersModel
  body : α

/-- `app.use('/api/vapi', validateVapiSecret)` composed with a route
handler: the handler runs only if the middleware passes the request on.
Handlers read only the body (headers are merely logged). -/
def vapiRoute {α β : Type} (handler : α → β) (onReject : Nat → String → β)
    (r : VapiRequest α) : β :=
  match validateVapiSecret r.headers with
  | MiddlewareStep.next => handler r.body
  | MiddlewareStep.respond s e => onReject s e

/-- Claim C7: the `x-vapi-secret` check is disabled — `validateVapiSecret`
passes every request on, so two requests to a `/api/vapi` route differing
only in the presence or value of the `x-vapi-secret` header get identical
responses, and no request is rejected by the middleware. -/
theorem vapi_secret_disabled :
    (∀ h : HeadersModel, validateVapiSecret h = MiddlewareStep.next) ∧
    (∀ (α β : Type) (handler : α → β) (onReject : Nat → String → β)
      (r1 r2 : VapiRequest α), r1.body = r2.body →
      vapiRoute handler onReject r1 = vapiRoute handler onReject r2) := by
  refine ⟨fun _ => rfl, ?_⟩
  intro α β handler onReject r1 r2 hb
  simp [vapiRoute, validateVapiSecret, hb]

/-- Witness for C7: same body, one request with a secret header and one
without, identical responses. -/
theorem vapi_secret_disabled_witness :
    vapiRoute (fun n : Nat => n + 1) (fun _ _ => 0)
        { headers := { xVapiSecret := some "right-secret", contentType := none,
                       userAgent := none },
          body := 41 } =
      vapiRoute (fun n : Nat => n + 1) (fun _ _ => 0)
        { headers := { xVapiSecret := none, contentType := none,
                       userAgent := none },
          body := 41 } :=
  vapi_secret_disabled.2 Nat Nat (fun n => n + 1) (fun _ _ => 0)
    { headers := { xVapiSecret := some "right-secret", contentType := none,
                   userAgent := none },
      body := 41 }
    { headers := { xVapiSecret := none, contentType := none, userAgent := none },
      body := 41 }
    rfl

/-! ## Claim C8: no handler mutates the shared property list -/

/-- A call into the property service.  The state-passing embeddings below
return the module-level list alongside the result, so that mutation — had
the source performed any — would be visible in the returned state. -/
inductive PropertyOp
  | search (params : PropertySearchParams)
  | schedule (env : SVEnv) (hubspot : Except String Unit)
      (params? : Option ViewingScheduleParams)

/-- State-passing `searchProperties`: the source copies the list
(`[...mockProperties]`) and filters the copy, leaving the module state
unchanged. -/
def searchPropertiesSt (db : List Property) (params : PropertySearchParams) :
    List Property × PropertySearchResponse :=
  (db, searchPropertiesCore db params)

/-- State-passing `scheduleViewing`: the source only reads the list
(`mockProperties.find`). -/
def scheduleViewingSt (db : List Property) (env : SVEnv)
    (hubspot : Except String Unit) (params? : Option ViewingScheduleParams) :
    List Property × SVOutcome :=
  (db, scheduleViewingCore db env hubspot params?)

/-- The module state after one service call. -/
def runOp (db : List Property) : PropertyOp → List Property
  | PropertyOp.search params => (searchPropertiesSt db params).1
  | PropertyOp.schedule env hs vp => (scheduleViewingSt db env hs vp).1

/-- Claim C8: no handler mutates shared state — after any sequence of
service calls the module-level list still equals the original five-element
literal, and every search result is a sublist (an in-order selection) of
that literal. -/
theorem handlers_no_mutation :
    (∀ ops : List PropertyOp, ops.foldl runOp mockProperties = mockProperties) ∧
    (∀ params : PropertySearchParams,
      List.Sublist (searchProperties params).properties mockProperties) := by
  constructor
  · have hid : ∀ (db : List Property) (op : PropertyOp), runOp db op = db := by
      intro db op
      cases op <;> rfl
    intro ops
    induction ops with
    | nil => rfl
    | cons op rest ih => rw [List.foldl_cons, hid]; exact ih
  · intro params
    have h := congrArg PropertySearchResponse.properties
      (searchPropertiesCore_eq_filter mockProperties params)
    rw [show (searchProperties params).properties =
        mockProperties.filter (codeMatches params) from h]
    exact List.filter_sublist mockProperties

end AgenticRE
